import Mathlib

/-!
Verification development for the `gcp-mail` email-validation service.

JavaScript strings are modelled as `List Char`.  Each definition below is a
shallow embedding of a function from the repository sources:
`src/validate.js` (SMTP deliverability probe, mail-exchanger resolver, batch
job counters) and the pattern-engine module (`generateEmailFromPattern`,
`detectPatternFromEmail`).
-/

/-- Shorthand turning a Lean string literal into the `List Char` model of a
JavaScript string. -/
def S (s : String) : List Char := s.data

/-- Model of JavaScript `String.prototype.toLowerCase` (ASCII range, which is
all the source ever feeds it). -/
def jsLower (s : List Char) : List Char := s.map Char.toLower

/-- Model of the JavaScript expression `` `${s[0]}` `` used by the pattern
engine: the first character of `s`, or the string `"undefined"` when `s` is
empty (template-literal rendering of `undefined`). -/
def charAt0 : List Char → List Char
  | [] => S "undefined"
  | c :: _ => [c]

/-- Model of JavaScript `s.split(sep)` for a single-character separator. -/
def jsSplitChar (sep : Char) : List Char → List (List Char)
  | [] => [[]]
  | c :: rest =>
    if c = sep then [] :: jsSplitChar sep rest
    else
      match jsSplitChar sep rest with
      | l :: ls => (c :: l) :: ls
      | [] => [[c]]

/-- Does `needle` occur at the head of `hay`?  (Helper for `containsSub`.) -/
def leadsWith : List Char → List Char → Bool
  | [], _ => true
  | _ :: _, [] => false
  | a :: as, b :: bs => a == b && leadsWith as bs

/-- Model of JavaScript `hay.includes(needle)` (substring containment). -/
def containsSub (needle : List Char) : List Char → Bool
  | [] => needle.isEmpty
  | c :: rest => leadsWith needle (c :: rest) || containsSub needle rest

/-! ## Pattern engine (`generateEmailFromPattern` / `detectPatternFromEmail`) -/

/-- `generateEmailFromPattern(firstName, lastName, domain, pattern)` from the
pattern-engine source: lower-cases both names and instantiates the local-part
template selected by `pattern`; any unrecognised pattern falls through to the
`firstname.lastname` template. -/
def generateEmailFromPattern (firstName lastName domain pattern : List Char) :
    List Char :=
  let first := jsLower firstName
  let last := jsLower lastName
  if pattern = S "firstname" then first ++ S "@" ++ domain
  else if pattern = S "firstname.lastname" then
    first ++ S "." ++ last ++ S "@" ++ domain
  else if pattern = S "firstnamelastname" then first ++ last ++ S "@" ++ domain
  else if pattern = S "f.lastname" then
    charAt0 first ++ S "." ++ last ++ S "@" ++ domain
  else if pattern = S "flastname" then charAt0 first ++ last ++ S "@" ++ domain
  else first ++ S "." ++ last ++ S "@" ++ domain

/-- `detectPatternFromEmail(email, firstName, lastName)` from the
pattern-engine source: takes the local part (`email.split("@")[0]`) and
compares it against the five templates in the source's fixed order. -/
def detectPatternFromEmail (email firstName lastName : List Char) :
    Option (List Char) :=
  let localPart := email.takeWhile (· ≠ '@')
  let first := jsLower firstName
  let last := jsLower lastName
  if localPart = first then some (S "firstname")
  else if localPart = first ++ S "." ++ last then some (S "firstname.lastname")
  else if localPart = first ++ last then some (S "firstnamelastname")
  else if localPart = charAt0 first ++ S "." ++ last then some (S "f.lastname")
  else if localPart = charAt0 first ++ last then some (S "flastname")
  else none

/-- The five named patterns in `detectPatternFromEmail`'s check order. -/
def patternOrder : List (List Char) :=
  [S "firstname", S "firstname.lastname", S "firstnamelastname",
   S "f.lastname", S "flastname"]

/-- The local-part template each named pattern denotes, applied to
already-lower-cased names (mirrors the comparison strings of
`detectPatternFromEmail`). -/
def localTemplate (first last p : List Char) : List Char :=
  if p = S "firstname" then first
  else if p = S "firstname.lastname" then first ++ S "." ++ last
  else if p = S "firstnamelastname" then first ++ last
  else if p = S "f.lastname" then charAt0 first ++ S "." ++ last
  else charAt0 first ++ last

/-- Specification-side rendering of `detectPatternFromEmail`'s control flow:
the first pattern of `ord` whose template matches the given local part.  Used
to state the "first matching pattern in fixed check order" clause; it is
proved equal to `detectPatternFromEmail` below. -/
def firstMatching (lp first last : List Char) : List (List Char) → Option (List Char)
  | [] => none
  | p :: ps =>
    if lp = localTemplate first last p then some p
    else firstMatching lp first last ps

/-! ## SMTP deliverability probe (`testSmtpConnection`, src/validate.js) -/

/-- Longest decimal-digit run at the head of `cs`, accumulated onto `acc`
(helper for `jsParseIntLead`). -/
def digitsValAux : List Char → Nat → Nat
  | c :: rest, acc =>
    if c.isDigit then digitsValAux rest (acc * 10 + (c.toNat - 48)) else acc
  | [], acc => acc

/-- Value of the longest digit run at the head of `cs`; `none` when `cs` does
not start with a digit. -/
def digitsVal : List Char → Option Nat
  | c :: rest =>
    if c.isDigit then some (digitsValAux rest (c.toNat - 48)) else none
  | [] => none

/-- Model of JavaScript `parseInt(s, 10)`: skip leading whitespace, accept an
optional sign, then read the longest digit run; `NaN` (here `none`) when no
digit follows. -/
def jsParseIntLead (cs : List Char) : Option Int :=
  let cs := cs.dropWhile Char.isWhitespace
  match cs with
  | '-' :: rest => (digitsVal rest).map (fun n => -(n : Int))
  | '+' :: rest => (digitsVal rest).map (fun n => (n : Int))
  | _ => (digitsVal cs).map (fun n => (n : Int))

/-- `parseInt(line.substring(0, 3), 10)` from `handleResponse`. -/
def parseCode (line : List Char) : Option Int := jsParseIntLead (line.take 3)

/-- The mutable closure state of one SMTP connection attempt: `step` indexes
the last command sent (`-1` before the greeting) and `success` is the flag set
by the RCPT-TO classification. -/
structure ProbeState where
  step : Int
  success : Bool
deriving DecidableEq, Repr

/-- Observable socket action performed by the dialogue script:
`writeCmd i` is `socket.write(commands[i])`, `endConn` is `socket.end()`. -/
inductive SmtpAction where
  | writeCmd (i : Nat)
  | endConn
deriving DecidableEq, Repr

/-- The hard-coded envelope sender of the probe. -/
def sender : List Char := S "noreply@adaca.com"

/-- `sender.split("@")[1]`, the HELO identity used in the EHLO command. -/
def senderDomain : List Char := (jsSplitChar '@' sender).getD 1 []

/-- The four scripted commands of `testSmtpConnection`. -/
def commands (targetEmail : List Char) : List (List Char) :=
  [S "EHLO " ++ senderDomain ++ S "\r\n",
   S "MAIL FROM:<" ++ sender ++ S ">\r\n",
   S "RCPT TO:<" ++ targetEmail ++ S ">\r\n",
   S "QUIT\r\n"]

/-- `sendNext` from `testSmtpConnection`: advance `step`; write the next
command while one remains, otherwise end the connection (the command list has
length 4). -/
def sendNext (st : ProbeState) : ProbeState × Option SmtpAction :=
  let st' : ProbeState := { st with step := st.step + 1 }
  if st'.step < 4 then (st', some (.writeCmd st'.step.toNat))
  else (st', some .endConn)

/-- The rejection phrases scanned for by the enhanced RCPT-TO analysis. -/
def rejectionPhrases : List (List Char) :=
  [S "undeliverable", S "does not exist", S "invalid recipient",
   S "user unknown", S "mailbox unavailable"]

/-- Does the response line contain any of the rejection phrases
(`line.includes(...)` chain in the source)? -/
def hasRejectionPhrase (line : List Char) : Bool :=
  rejectionPhrases.any (fun p => containsSub p line)

/-- `handleResponse` of `testSmtpConnection` (the enhanced revision,
src/validate.js lines 1120–1152): parse the status code from the first three
characters, ignore unparseable lines, accept only the greeting at step `-1`,
classify the RCPT-TO reply at step `2` (250/251 overridden to failure when a
rejection phrase occurs in the text; 550/551/553 failure; otherwise 2xx),
advance on any other 2xx reply, and end the connection on anything else. -/
def handleResponse (line : List Char) (st : ProbeState) :
    ProbeState × Option SmtpAction :=
  match parseCode line with
  | none => (st, none)
  | some code =>
    if st.step = -1 ∧ code = 220 then sendNext st
    else if st.step = 2 then
      let succ : Bool :=
        if code = 250 ∨ code = 251 then !hasRejectionPhrase line
        else if code = 550 ∨ code = 551 ∨ code = 553 then false
        else decide (200 ≤ code ∧ code < 300)
      sendNext { st with success := succ }
    else if 200 ≤ code ∧ code < 300 then sendNext st
    else (st, some .endConn)

/-- Does the line start with three digits followed by a dash, i.e. is it an
SMTP continuation line (the source's caret-digit-3-dash regex)? -/
def isContLine : List Char → Bool
  | a :: b :: c :: d :: _ => a.isDigit && b.isDigit && c.isDigit && d == '-'
  | _ => false

/-- Drop a single leading carriage return (helper implementing the `\r?`
part of the split regex, applied to the reversed accumulator). -/
def stripCR (cs : List Char) : List Char :=
  match cs with
  | c :: t => if c = '\r' then t else cs
  | [] => []

/-- Accumulator-based splitter behind `splitLines`; `acc` holds the reversed
current line. -/
def splitLinesAux : List Char → List Char → List (List Char) × List Char
  | [], acc => ([], acc.reverse)
  | c :: rest, acc =>
    if c = '\n' then
      let line := (stripCR acc).reverse
      let (ls, r) := splitLinesAux rest []
      (line :: ls, r)
    else splitLinesAux rest (c :: acc)

/-- Model of `buffer.split(/\r?\n/)` followed by `buffer = lines.pop()`:
returns the completed lines and the trailing unterminated remainder. -/
def splitLines (cs : List Char) : List (List Char) × List Char :=
  splitLinesAux cs []

/-- State carried across `data` events: the dialogue state plus the partial
line buffer. -/
structure ConnState where
  probe : ProbeState
  buffer : List Char
deriving DecidableEq, Repr

/-- Per-line body of the `data` handler: skip empty lines and continuation
lines, feed everything else to `handleResponse`, collecting the emitted socket
actions. -/
def processLine (acc : ProbeState × List SmtpAction) (line : List Char) :
    ProbeState × List SmtpAction :=
  if line ≠ [] ∧ isContLine line = false then
    let (st', a) := handleResponse line acc.1
    (st', acc.2 ++ a.toList)
  else acc

/-- The socket `data` handler of `testSmtpConnection`: append the chunk to
the buffer, split into lines keeping the unterminated tail buffered, and
process each completed line. -/
def onData (cs : ConnState) (chunk : List Char) : ConnState × List SmtpAction :=
  let (lines, rem) := splitLines (cs.buffer ++ chunk)
  let (st', acts) := lines.foldl processLine (cs.probe, [])
  (⟨st', rem⟩, acts)

/-- Events delivered to one connection attempt's socket. -/
inductive SockEvent where
  | chunk (payload : List Char)
  | timed
  | sockErr (message code : List Char)
  | ended
  | closed
deriving DecidableEq, Repr

/-- Settlement of the per-attempt promise: `resolved b` models
`resolve(b)`, `rejected msg` models `reject(new Error(msg))`. -/
inductive AttemptResult where
  | resolved (b : Bool)
  | rejected (msg : List Char)
deriving DecidableEq, Repr

/-- The socket timeout constant of src/validate.js. -/
def SMTP_TIMEOUT : Nat := 30000

/-- `socket.setTimeout(SMTP_TIMEOUT)`: the timeout actually installed on the
probe socket is the fixed constant, whatever timeout the HTTP caller sent. -/
def socketTimeoutApplied (callerTimeout : Nat) : Nat := SMTP_TIMEOUT

/-- Diagnostic of the `timeout` handler: `Timeout after 30000ms`. -/
def timeoutDiag : List Char :=
  S "Timeout after " ++ (Nat.repr SMTP_TIMEOUT).data ++ S "ms"

/-- Diagnostic of the `error` handler:
`Socket error: <message> (<code>)`. -/
def socketErrDiag (message code : List Char) : List Char :=
  S "Socket error: " ++ message ++ S " (" ++ code ++ S ")"

/-- Run one connection attempt over its socket-event trace; the first
terminal event settles the promise (`resolved` guard in `finish`). -/
def runAttempt (st : ConnState) : List SockEvent → Option AttemptResult
  | [] => none
  | ev :: evs =>
    match ev with
    | .chunk payload => runAttempt (onData st payload).1 evs
    | .timed => some (.rejected timeoutDiag)
    | .sockErr m c => some (.rejected (socketErrDiag m c))
    | .ended => some (.resolved st.probe.success)
    | .closed => some (.resolved st.probe.success)

/-- The port loop of `testSmtpConnection` acting on the settled per-port
attempt results: a resolved `true` returns immediately; a resolved `false`
falls through to the next port; a rejection is caught and the loop
continues; after exhaustion the function returns `false`. -/
def portLoop : List AttemptResult → Bool
  | [] => false
  | .resolved true :: _ => true
  | _ :: rest => portLoop rest

/-- `testSmtpConnection`'s overall result as a function of its settled port
attempts: a plain boolean, never a rejection (every rejection is caught
inside the port loop). -/
def testSmtpConnectionModel (attempts : List AttemptResult) : Bool :=
  portLoop attempts

/-! ## Mail-exchanger resolver (`getMXServers`, src/validate.js) -/

/-- One DNS MX record as returned by the DNS collaborator. -/
structure MXRecord where
  exchange : List Char
  priority : Int
deriving DecidableEq, Repr

/-- Insert a record into an already-sorted list, before the first record of
strictly greater-or-equal... precisely: after every record of strictly
smaller priority and before the rest.  Together with `sortMX` this realises
the stable ascending sort `records.sort((a, b) => a.priority - b.priority)`
performed by V8's stable `Array.prototype.sort`. -/
def insertMX (r : MXRecord) : List MXRecord → List MXRecord
  | [] => [r]
  | x :: xs =>
    if x.priority < r.priority then x :: insertMX r xs else r :: x :: xs

/-- Stable insertion sort by ascending priority (model of the source's
`mxRecords.sort((a, b) => a.priority - b.priority)`). -/
def sortMX : List MXRecord → List MXRecord
  | [] => []
  | r :: rs => insertMX r (sortMX rs)

/-- `getMXServers(domain)` with the DNS lookup result supplied as an oracle:
`none` models a rejected `dns.resolveMx` (lookup failure), `some records` a
fulfilled one.  On failure the fixed four guessed hostnames are returned; on
success the exchanges of the priority-sorted records. -/
def getMXServers (domain : List Char) (lookup : Option (List MXRecord)) :
    List (List Char) :=
  match lookup with
  | some records => (sortMX records).map (·.exchange)
  | none =>
    [S "smtp." ++ domain, S "mail." ++ domain, S "mx." ++ domain,
     S "mx1." ++ domain]

/-! ## Single-address endpoint (`validateEmail`, src/validate.js) -/

/-- Result of the `validateEmail` handler as far as the core is concerned:
either a 400 rejection or the JSON response's `success`/`error` pair. -/
inductive ValidateResult where
  | badRequest (msg : List Char)
  | apiResponse (success : Bool) (error : Option (List Char))
deriving DecidableEq, Repr

/-- The fallback error text `"No SMTP servers responded"`. -/
def NO_SMTP_MSG : List Char := S "No SMTP servers responded"

/-- The MX-server loop of `validateEmail`: try each server's probe, break on
the first `true`.  `lastError` (second component) is assigned only inside the
`catch` branch, and `testSmtpConnectionModel` is a total boolean function —
the embedded `testSmtpConnection` catches every rejection in its own port
loop — so the accumulator passes through unchanged. -/
def serverLoop (oracle : List Char → List AttemptResult) :
    List (List Char) → List Char → Bool × List Char
  | [], lastErr => (false, lastErr)
  | srv :: rest, lastErr =>
    if testSmtpConnectionModel (oracle srv) then (true, lastErr)
    else serverLoop oracle rest lastErr

/-- The `validateEmail` handler (src/validate.js lines 555–662) with its two
environment effects supplied as oracles: the DNS lookup result and, per
exchanger hostname, the settled port-attempt results of its probe.  The
caller-supplied `timeout` is destructured from the request exactly as in the
source, where it is only ever logged. -/
def validateEmailRun (email : List Char) (timeout : Nat)
    (lookup : Option (List MXRecord))
    (oracle : List Char → List AttemptResult) : ValidateResult :=
  match (jsSplitChar '@' email).get? 1 with
  | none => .badRequest (S "Invalid email format")
  | some [] => .badRequest (S "Invalid email format")
  | some domain =>
    let mxServers := getMXServers domain lookup
    if mxServers = [] then
      .apiResponse false (some (S "No MX records found for domain"))
    else
      let res := serverLoop oracle mxServers []
      .apiResponse res.1
        (if res.1 then none
         else some (if res.2 = [] then NO_SMTP_MSG else res.2))

/-! ## Batch job counters (`processBatchValidation`, src/validate.js) -/

/-- The progress counters of one batch job record. -/
structure JobCounters where
  processedEmails : Nat
  validEmails : Nat
  invalidEmails : Nat
deriving DecidableEq, Repr

/-- Completion of one input item: `processedEmails` is incremented and
exactly one of `validEmails` / `invalidEmails`, in the same synchronous
block (both branches of the item's try/catch do exactly this). -/
def stepJob (j : JobCounters) (valid : Bool) : JobCounters :=
  { processedEmails := j.processedEmails + 1,
    validEmails := if valid then j.validEmails + 1 else j.validEmails,
    invalidEmails := if valid then j.invalidEmails else j.invalidEmails + 1 }

/-- Job counters after a sequence of item completions (items of one job
complete in some interleaving order; each applies `stepJob` once). -/
def runJob (outcomes : List Bool) : JobCounters :=
  outcomes.foldl stepJob ⟨0, 0, 0⟩

/-! ## Helper lemmas: pattern engine -/

theorem localTemplate_fn (f l : List Char) :
    localTemplate f l (S "firstname") = f := rfl

theorem localTemplate_fn_ln (f l : List Char) :
    localTemplate f l (S "firstname.lastname") = f ++ S "." ++ l := rfl

theorem localTemplate_fnln (f l : List Char) :
    localTemplate f l (S "firstnamelastname") = f ++ l := rfl

theorem localTemplate_f_ln (f l : List Char) :
    localTemplate f l (S "f.lastname") = charAt0 f ++ S "." ++ l := rfl

theorem localTemplate_fln (f l : List Char) :
    localTemplate f l (S "flastname") = charAt0 f ++ l := rfl

theorem gen_pat_fn (f l d : List Char) :
    generateEmailFromPattern f l d (S "firstname")
      = jsLower f ++ S "@" ++ d := rfl

theorem gen_pat_fn_ln (f l d : List Char) :
    generateEmailFromPattern f l d (S "firstname.lastname")
      = jsLower f ++ S "." ++ jsLower l ++ S "@" ++ d := rfl

theorem gen_pat_fnln (f l d : List Char) :
    generateEmailFromPattern f l d (S "firstnamelastname")
      = jsLower f ++ jsLower l ++ S "@" ++ d := rfl

theorem gen_pat_f_ln (f l d : List Char) :
    generateEmailFromPattern f l d (S "f.lastname")
      = charAt0 (jsLower f) ++ S "." ++ jsLower l ++ S "@" ++ d := rfl

theorem gen_pat_fln (f l d : List Char) :
    generateEmailFromPattern f l d (S "flastname")
      = charAt0 (jsLower f) ++ jsLower l ++ S "@" ++ d := rfl

/-- On any of the five named patterns, `generateEmailFromPattern` is exactly
the pattern's local-part template followed by `'@'` and the domain. -/
theorem gen_localTemplate (f l d p : List Char) (hp : p ∈ patternOrder) :
    generateEmailFromPattern f l d p
      = localTemplate (jsLower f) (jsLower l) p ++ '@' :: d := by
  have hat : S "@" = ['@'] := rfl
  simp only [patternOrder, List.mem_cons, List.not_mem_nil, or_false] at hp
  rcases hp with rfl | rfl | rfl | rfl | rfl <;>
    simp [gen_pat_fn, gen_pat_fn_ln, gen_pat_fnln, gen_pat_f_ln, gen_pat_fln,
      localTemplate_fn, localTemplate_fn_ln, localTemplate_fnln,
      localTemplate_f_ln, localTemplate_fln, hat, List.append_assoc]

/-- Splitting at the first `'@'` recovers a local part that contains no
`'@'`. -/
theorem takeWhile_append_at (t d : List Char) (h : '@' ∉ t) :
    (t ++ '@' :: d).takeWhile (· ≠ '@') = t := by
  induction t with
  | nil => simp [List.takeWhile]
  | cons c t ih =>
    have hc : c ≠ '@' := fun hcc => h (hcc ▸ List.mem_cons_self c t)
    have ht : '@' ∉ t := fun hm => h (List.mem_cons_of_mem c hm)
    rw [List.cons_append, List.takeWhile_cons_of_pos (by simpa using hc), ih ht]

/-- `detectPatternFromEmail` is the first-match scan of the five templates in
the source's check order. -/
theorem detect_firstMatching (email firstName lastName : List Char) :
    detectPatternFromEmail email firstName lastName
      = firstMatching (email.takeWhile (· ≠ '@'))
          (jsLower firstName) (jsLower lastName) patternOrder := by
  simp only [detectPatternFromEmail, patternOrder, firstMatching,
    localTemplate_fn, localTemplate_fn_ln, localTemplate_fnln,
    localTemplate_f_ln, localTemplate_fln]

/-- When the templates of `ord` are pairwise distinct, the first-match scan
of a template's own instantiation finds exactly that pattern. -/
theorem firstMatching_self (f l p : List Char) (ord : List (List Char))
    (hp : p ∈ ord)
    (hdist : (ord.map (localTemplate f l)).Pairwise (· ≠ ·)) :
    firstMatching (localTemplate f l p) f l ord = some p := by
  induction ord with
  | nil => cases hp
  | cons a rest ih =>
    rcases List.mem_cons.mp hp with rfl | hmem
    · simp [firstMatching]
    · rw [List.map_cons, List.pairwise_cons] at hdist
      have hne : localTemplate f l p ≠ localTemplate f l a := by
        intro h
        exact hdist.1 (localTemplate f l p) (List.mem_map_of_mem _ hmem) h.symm
      rw [firstMatching, if_neg hne]
      exact ih hmem hdist.2

/-! ## Helper lemmas: probe, data handler, resolver, job counters -/

theorem sendNext_success (st : ProbeState) :
    ((sendNext st).1).success = st.success := by
  unfold sendNext
  dsimp only
  split <;> rfl

/-- Feeding a single CR-LF-terminated line through the splitter yields that
line (with the pending accumulator prefixed) and an empty remainder. -/
theorem splitLinesAux_crlf (l acc : List Char) (h : '\n' ∉ l) :
    splitLinesAux (l ++ S "\r\n") acc = ([acc.reverse ++ l], []) := by
  induction l generalizing acc with
  | nil =>
    simp [splitLinesAux, stripCR]
  | cons c t ih =>
    have hc : c ≠ '\n' := fun hcc => h (hcc ▸ List.mem_cons_self c t)
    have ht : '\n' ∉ t := fun hm => h (List.mem_cons_of_mem c hm)
    rw [List.cons_append, splitLinesAux, if_neg hc, ih (c :: acc) ht]
    simp

theorem insertMX_perm (r : MXRecord) (l : List MXRecord) :
    (insertMX r l).Perm (r :: l) := by
  induction l with
  | nil => simp [insertMX]
  | cons x xs ih =>
    rw [insertMX]
    split
    · exact (ih.cons x).trans (List.Perm.swap r x xs)
    · exact List.Perm.refl _

theorem sortMX_perm (l : List MXRecord) : (sortMX l).Perm l := by
  induction l with
  | nil => simp [sortMX]
  | cons r rs ih => exact (insertMX_perm r (sortMX rs)).trans (ih.cons r)

theorem insertMX_sorted (r : MXRecord) (l : List MXRecord)
    (h : l.Pairwise (fun a b => a.priority ≤ b.priority)) :
    (insertMX r l).Pairwise (fun a b => a.priority ≤ b.priority) := by
  induction l with
  | nil => simp [insertMX]
  | cons x xs ih =>
    rw [List.pairwise_cons] at h
    rw [insertMX]
    split
    · rename_i hlt
      rw [List.pairwise_cons]
      refine ⟨fun y hy => ?_, ih h.2⟩
      rcases List.mem_cons.mp ((insertMX_perm r xs).mem_iff.mp hy) with rfl | hyx
      · omega
      · exact h.1 y hyx
    · rename_i hge
      rw [List.pairwise_cons]
      refine ⟨fun y hy => ?_, List.pairwise_cons.mpr h⟩
      rcases List.mem_cons.mp hy with rfl | hyx
      · omega
      · have := h.1 y hyx
        omega

theorem sortMX_sorted (l : List MXRecord) :
    (sortMX l).Pairwise (fun a b => a.priority ≤ b.priority) := by
  induction l with
  | nil => simp [sortMX]
  | cons r rs ih => exact insertMX_sorted r (sortMX rs) ih

/-- Stability of the insertion step: restricted to any one priority value,
inserting behaves like prepending. -/
theorem insertMX_filter_priority (r : MXRecord) (l : List MXRecord) (p : Int) :
    (insertMX r l).filter (fun x => x.priority == p)
      = (r :: l).filter (fun x => x.priority == p) := by
  induction l with
  | nil => rfl
  | cons x xs ih =>
    rw [insertMX]
    split
    · rename_i hlt
      by_cases hr : r.priority = p
      · have hx : ¬ x.priority = p := by omega
        simp only [List.filter_cons] at ih ⊢
        simp [hr, hx] at ih ⊢
        exact ih
      · simp only [List.filter_cons] at ih ⊢
        by_cases hx : x.priority = p <;> simp [hr, hx] at ih ⊢ <;> exact ih
    · rfl

/-- Stability of the sort: the records of any one priority value appear in
their original order. -/
theorem sortMX_filter_priority (l : List MXRecord) (p : Int) :
    (sortMX l).filter (fun x => x.priority == p)
      = l.filter (fun x => x.priority == p) := by
  induction l with
  | nil => rfl
  | cons r rs ih =>
    rw [sortMX, insertMX_filter_priority]
    simp only [List.filter_cons]
    by_cases hr : r.priority = p <;> simp [hr, ih]

/-- Folding `stepJob` adds the number of items to `processedEmails` and to
the sum `validEmails + invalidEmails`. -/
theorem stepJob_foldl (l : List Bool) (j : JobCounters) :
    ((l.foldl stepJob j).processedEmails = j.processedEmails + l.length)
    ∧ ((l.foldl stepJob j).validEmails + (l.foldl stepJob j).invalidEmails
        = j.validEmails + j.invalidEmails + l.length) := by
  induction l generalizing j with
  | nil => simp
  | cons b t ih =>
    simp only [List.foldl_cons, List.length_cons]
    obtain ⟨h1, h2⟩ := ih (stepJob j b)
    have hs : (stepJob j b).processedEmails = j.processedEmails + 1 ∧
        (stepJob j b).validEmails + (stepJob j b).invalidEmails
          = j.validEmails + j.invalidEmails + 1 := by
      cases b <;> simp [stepJob] <;> omega
    obtain ⟨hs1, hs2⟩ := hs
    omega

/-! ## Claims -/

/-- Claim C1: for every response line processed at the RCPT-TO step of the
dialogue (closure step counter `2`, i.e. the fourth response), a parseable
status code of 250 or 251 yields `deliverable` exactly when the line text
contains none of the five rejection phrases; any other code in 200–299
yields `deliverable`; 550, 551, 553 and every code outside 200–299 yield
`not-deliverable` (the `success` flag that the attempt later resolves). -/
theorem C1_rcpt_classification (line : List Char) (code : Int) (st : ProbeState)
    (hstep : st.step = 2) (hcode : parseCode line = some code) :
    ((code = 250 ∨ code = 251) →
      ((handleResponse line st).1.success = !hasRejectionPhrase line))
    ∧ ((200 ≤ code ∧ code < 300 ∧ code ≠ 250 ∧ code ≠ 251) →
      (handleResponse line st).1.success = true)
    ∧ ((code = 550 ∨ code = 551 ∨ code = 553) →
      (handleResponse line st).1.success = false)
    ∧ (¬(200 ≤ code ∧ code < 300) →
      (handleResponse line st).1.success = false) := by
  have hne : ¬(st.step = -1 ∧ code = 220) := by
    rw [hstep]
    rintro ⟨hc, -⟩
    exact absurd hc (by decide)
  have hred : handleResponse line st
      = sendNext { st with success :=
          (if code = 250 ∨ code = 251 then !hasRejectionPhrase line
           else if code = 550 ∨ code = 551 ∨ code = 553 then false
           else decide (200 ≤ code ∧ code < 300)) } := by
    rw [handleResponse, hcode]
    dsimp only
    rw [if_neg hne, if_pos hstep]
  rw [hred, sendNext_success]
  refine ⟨fun h => ?_, fun h => ?_, fun h => ?_, fun h => ?_⟩
  · rw [if_pos h]
  · obtain ⟨h1, h2, h3, h4⟩ := h
    rw [if_neg (by push_neg; exact ⟨h3, h4⟩), if_neg (by omega)]
    simp only [decide_eq_true_eq]
    exact ⟨h1, h2⟩
  · rw [if_neg (by omega), if_pos h]
  · by_cases h5 : code = 550 ∨ code = 551 ∨ code = 553
    · rw [if_neg (by omega), if_pos h5]
    · rw [if_neg (by omega), if_neg h5]
      simp only [decide_eq_false_iff_not]
      exact h

/-- Witness for C1 at the spec's own example: a `250` reply whose text embeds
`does not exist` is classified not-deliverable. -/
theorem C1_witness :
    parseCode (S "250 2.1.5 Recipient address does not exist") = some 250
    ∧ (handleResponse (S "250 2.1.5 Recipient address does not exist")
        ⟨2, true⟩).1.success = false := by
  refine ⟨by decide, ?_⟩
  have h := C1_rcpt_classification
    (S "250 2.1.5 Recipient address does not exist") 250 ⟨2, true⟩ rfl (by decide)
  rw [h.1 (Or.inl rfl)]
  decide

/-- Counterexample to claim C4 as stated: the parseable greeting line
`250 smtp2.example.com ESMTP ready` has code 250 ≠ 220, yet the probe
advances and writes `commands[0]` — the EHLO command — instead of
aborting. -/
theorem C4_counterexample :
    parseCode (S "250 smtp2.example.com ESMTP ready") = some 250
    ∧ (250 : Int) ≠ 220
    ∧ handleResponse (S "250 smtp2.example.com ESMTP ready") ⟨-1, false⟩
        = (⟨0, false⟩, some (SmtpAction.writeCmd 0))
    ∧ (commands (S "user@example.com")).get? 0
        = some (S "EHLO adaca.com\r\n") := by decide

/-- Claim C4 (amended): at the greeting step (step counter `-1`) the probe
sends the EHLO command — `commands[0]` — for every parseable greeting whose
code lies in 200–299 (not only 220: a non-220 2xx greeting falls into the
generic 2xx-advance branch), and aborts with `socket.end()` without sending
EHLO for every parseable code outside 200–299. -/
theorem C4_greeting_amended (line target : List Char) (code : Int)
    (st : ProbeState) (hstep : st.step = -1)
    (hcode : parseCode line = some code) :
    ((200 ≤ code ∧ code < 300) →
      handleResponse line st = ({ st with step := 0 }, some (.writeCmd 0)))
    ∧ (¬(200 ≤ code ∧ code < 300) →
      handleResponse line st = (st, some .endConn))
    ∧ (commands target).get? 0 = some (S "EHLO " ++ senderDomain ++ S "\r\n") := by
  refine ⟨fun h => ?_, fun h => ?_, rfl⟩
  · have hsend : handleResponse line st = sendNext st := by
      rw [handleResponse, hcode]
      dsimp only
      by_cases h220 : code = 220
      · rw [if_pos ⟨hstep, h220⟩]
      · rw [if_neg (fun hh => h220 hh.2), if_neg (by rw [hstep]; decide),
          if_pos h]
    rw [hsend, sendNext]
    dsimp only
    rw [if_pos (by rw [hstep]; decide)]
    have h0 : st.step + 1 = 0 := by omega
    rw [h0]
    rfl
  · rw [handleResponse, hcode]
    dsimp only
    rw [if_neg (fun hh => h (by rw [hh.2]; exact ⟨by decide, by decide⟩)),
      if_neg (by rw [hstep]; decide), if_neg h]

/-- Witness for C4 (amended) at the regular 220 greeting: hypotheses hold
and the EHLO command is written. -/
theorem C4_witness :
    parseCode (S "220 mx.test ESMTP Postfix") = some 220
    ∧ handleResponse (S "220 mx.test ESMTP Postfix") ⟨-1, false⟩
        = (⟨0, false⟩, some (SmtpAction.writeCmd 0)) := by
  refine ⟨by decide, ?_⟩
  have h := C4_greeting_amended (S "220 mx.test ESMTP Postfix")
    (S "user@example.com") 220 ⟨-1, false⟩ rfl (by decide)
  exact h.1 (by decide)

/-- Claim C5: continuation lines (three digits then a dash) are dropped by
the data handler without touching the dialogue state or emitting actions;
the two-line response `250-Hello` / `250 OK` is processed identically to the
single response `250 OK`; and a completed line with no parseable leading
code leaves the dialogue state unchanged, still waiting. -/
theorem C5_multiline_handling (st : ProbeState) (l l2 : List Char)
    (hnl : '\n' ∉ l) (hcont : isContLine l = true)
    (hnl2 : '\n' ∉ l2) (hnp : parseCode l2 = none) :
    onData ⟨st, []⟩ (l ++ S "\r\n") = (⟨st, []⟩, [])
    ∧ onData ⟨st, []⟩ (S "250-Hello\r\n250 OK\r\n")
        = onData ⟨st, []⟩ (S "250 OK\r\n")
    ∧ onData ⟨st, []⟩ (l2 ++ S "\r\n") = (⟨st, []⟩, []) := by
  refine ⟨?_, rfl, ?_⟩
  · rw [onData]
    dsimp only
    rw [List.nil_append, splitLines, splitLinesAux_crlf l [] hnl]
    dsimp only [List.reverse_nil, List.nil_append, List.foldl]
    rw [processLine, if_neg (by simp [hcont])]
  · rw [onData]
    dsimp only
    rw [List.nil_append, splitLines, splitLinesAux_crlf l2 [] hnl2]
    dsimp only [List.reverse_nil, List.nil_append, List.foldl]
    rw [processLine]
    split
    · rw [handleResponse, hnp]
      rfl
    · rfl

/-- Witness for C5: a concrete continuation line and a concrete unparseable
line are both ignored from the initial dialogue state. -/
theorem C5_witness :
    ('\n' ∉ S "250-mx.test greets you")
    ∧ isContLine (S "250-mx.test greets you") = true
    ∧ ('\n' ∉ S "greeting pending")
    ∧ parseCode (S "greeting pending") = none
    ∧ onData ⟨⟨-1, false⟩, []⟩ (S "250-mx.test greets you" ++ S "\r\n")
        = (⟨⟨-1, false⟩, []⟩, []) := by
  refine ⟨by decide, by decide, by decide, by decide, ?_⟩
  exact (C5_multiline_handling ⟨-1, false⟩ (S "250-mx.test greets you")
    (S "greeting pending") (by decide) (by decide) (by decide) (by decide)).1

/-- Counterexample to claim C2 as stated: when the DNS lookup fulfils with an
empty record set — the case the callers guard with `mxServers.length === 0` —
the resolver returns the empty list, not a non-empty one. -/
theorem C2_counterexample :
    getMXServers (S "example.com") (some []) = [] := by decide

/-- Claim C2 (amended): the resolver is non-empty whenever the DNS lookup
fails or returns at least one record.  On failure it returns exactly the
four guessed hostnames `smtp.`, `mail.`, `mx.`, `mx1.` + domain, in that
order; on success it returns the exchanges of the records sorted by
ascending priority, ties keeping the original record order (captured by
permutation + sortedness + per-priority filter preservation). -/
theorem C2_resolver_amended (domain : List Char) (records : List MXRecord)
    (p : Int) (hne : records ≠ []) :
    getMXServers domain none
      = [S "smtp." ++ domain, S "mail." ++ domain, S "mx." ++ domain,
         S "mx1." ++ domain]
    ∧ getMXServers domain none ≠ []
    ∧ getMXServers domain (some records) = (sortMX records).map (·.exchange)
    ∧ getMXServers domain (some records) ≠ []
    ∧ (sortMX records).Perm records
    ∧ (sortMX records).Pairwise (fun a b => a.priority ≤ b.priority)
    ∧ (sortMX records).filter (fun x => x.priority == p)
        = records.filter (fun x => x.priority == p) := by
  refine ⟨rfl, by simp [getMXServers], rfl, ?_, sortMX_perm records,
    sortMX_sorted records, sortMX_filter_priority records p⟩
  have hlen : (sortMX records).length = records.length :=
    (sortMX_perm records).length_eq
  intro h
  rw [getMXServers] at h
  have := congrArg List.length h
  simp [hlen] at this
  exact hne this

/-- Witness for C2 (amended): a concrete three-record lookup with a tie at
priority 10 keeps `b` before `c` and puts priority 5 first. -/
theorem C2_witness :
    ([⟨S "b", 10⟩, ⟨S "a", 5⟩, ⟨S "c", 10⟩] : List MXRecord) ≠ []
    ∧ getMXServers (S "d.io") (some [⟨S "b", 10⟩, ⟨S "a", 5⟩, ⟨S "c", 10⟩])
        ≠ []
    ∧ getMXServers (S "d.io") (some [⟨S "b", 10⟩, ⟨S "a", 5⟩, ⟨S "c", 10⟩])
        = [S "a", S "b", S "c"] := by
  refine ⟨by decide, ?_, by decide⟩
  exact (C2_resolver_amended (S "d.io")
    [⟨S "b", 10⟩, ⟨S "a", 5⟩, ⟨S "c", 10⟩] 10 (by decide)).2.2.2.1

/-- Counterexample to claim C3 as stated: the probe's result for a
connection-level failure (a timeout rejection caught by the port loop) and
for a not-deliverable classification is the same boolean value — the caller
of `testSmtpConnection` receives `false` in both cases and cannot
distinguish an indeterminate outcome from a not-deliverable one. -/
theorem C3_counterexample :
    testSmtpConnectionModel [AttemptResult.rejected (S "Timeout after 30000ms")]
      = testSmtpConnectionModel [AttemptResult.resolved false]
    ∧ testSmtpConnectionModel [AttemptResult.rejected (S "Timeout after 30000ms")]
      = false := by decide

/-- Claim C3 (amended): inside the probe, a timeout or TCP error rejects the
per-attempt promise with a diagnostic message — an outcome distinguishable,
within the port loop, from the resolved `false` of a not-deliverable
classification — and the port loop catches it and continues with the next
attempt; an abrupt close, however, resolves with the current `success` flag
(`false` before a terminal classification), and after the loop the probe
returns a single boolean, so the probe's own caller cannot distinguish
indeterminate from not-deliverable. -/
theorem C3_outcome_amended (st : ConnState) (es : List SockEvent)
    (m c diag : List Char) (rest : List AttemptResult) :
    runAttempt st (.timed :: es) = some (.rejected timeoutDiag)
    ∧ runAttempt st (.sockErr m c :: es) = some (.rejected (socketErrDiag m c))
    ∧ runAttempt st (.closed :: es) = some (.resolved st.probe.success)
    ∧ (∀ b : Bool, AttemptResult.rejected diag ≠ AttemptResult.resolved b)
    ∧ portLoop (.rejected diag :: rest) = portLoop rest
    ∧ portLoop (.resolved false :: rest) = portLoop rest
    ∧ testSmtpConnectionModel [.rejected diag]
        = testSmtpConnectionModel [.resolved false] := by
  refine ⟨rfl, rfl, rfl, ?_, rfl, rfl, rfl⟩
  intro b h
  exact AttemptResult.noConfusion h

/-- Claim C6 evaluated on the code (the claim states the intended behaviour;
the code drops the diagnostic): with one exchanger whose only attempt fails
with the timeout diagnostic, `validateEmail` reports the item invalid with
the fixed fallback text `No SMTP servers responded` — not the attempt's
diagnostic.  `testSmtpConnection` catches every rejection in its port loop
and returns `false` instead of rethrowing, so the `lastError` assignment in
`validateEmail`'s catch block never runs. -/
theorem C6_last_diagnostic_lost :
    validateEmailRun (S "user@example.com") 30000
        (some [⟨S "mx.example.com", 10⟩])
        (fun _ => [.rejected timeoutDiag])
      = .apiResponse false (some NO_SMTP_MSG)
    ∧ NO_SMTP_MSG ≠ timeoutDiag := by decide

/-- Claim C7: job-counter invariant of `processBatchValidation`.  For any
interleaving of item completions (`outcomes`, one boolean per finished item
of a job with `total` inputs), at every inspection point (any prefix
`take k`) `processedEmails = validEmails + invalidEmails` and
`validEmails + invalidEmails ≤ total`; each item completion increments
`processedEmails` and exactly one of `validEmails` / `invalidEmails`; when
all items have completed, `processedEmails = total`. -/
theorem C7_job_counters (outcomes : List Bool) (total k : Nat)
    (j : JobCounters) (hlen : outcomes.length ≤ total) :
    ((runJob (outcomes.take k)).processedEmails
        = (runJob (outcomes.take k)).validEmails
          + (runJob (outcomes.take k)).invalidEmails)
    ∧ ((runJob (outcomes.take k)).validEmails
        + (runJob (outcomes.take k)).invalidEmails ≤ total)
    ∧ ((stepJob j true).processedEmails = j.processedEmails + 1
        ∧ (stepJob j true).validEmails = j.validEmails + 1
        ∧ (stepJob j true).invalidEmails = j.invalidEmails)
    ∧ ((stepJob j false).processedEmails = j.processedEmails + 1
        ∧ (stepJob j false).invalidEmails = j.invalidEmails + 1
        ∧ (stepJob j false).validEmails = j.validEmails)
    ∧ (outcomes.length = total → (runJob outcomes).processedEmails = total) := by
  have htake := stepJob_foldl (outcomes.take k) ⟨0, 0, 0⟩
  have hfull := stepJob_foldl outcomes ⟨0, 0, 0⟩
  simp only [List.length_take] at htake
  dsimp only at htake hfull
  obtain ⟨ht1, ht2⟩ := htake
  obtain ⟨hf1, hf2⟩ := hfull
  refine ⟨?_, ?_, ⟨rfl, rfl, rfl⟩, ⟨rfl, rfl, rfl⟩, fun h => ?_⟩
  · rw [runJob]
    omega
  · rw [runJob]
    omega
  · rw [runJob]
    omega

/-- Witness for C7 at a concrete three-item job inspected after two
completions. -/
theorem C7_witness :
    ([true, false, true] : List Bool).length ≤ 3
    ∧ (runJob ([true, false, true].take 2)).processedEmails
        = (runJob ([true, false, true].take 2)).validEmails
          + (runJob ([true, false, true].take 2)).invalidEmails
    ∧ (runJob [true, false, true]).processedEmails = 3 := by
  have h := C7_job_counters [true, false, true] 3 2 ⟨0, 0, 0⟩ (by decide)
  exact ⟨by decide, h.1, h.2.2.2.2 (by decide)⟩

/-- Claim C8: the caller-supplied `timeout` is a dead parameter.  Two
single-address validation runs differing only in the request's `timeout`
value produce identical results, the timeout installed on the probe socket
is the constant `SMTP_TIMEOUT`, and that constant is 30000 ms. -/
theorem C8_timeout_dead_parameter (email : List Char) (t1 t2 : Nat)
    (lookup : Option (List MXRecord))
    (oracle : List Char → List AttemptResult) :
    validateEmailRun email t1 lookup oracle
        = validateEmailRun email t2 lookup oracle
    ∧ socketTimeoutApplied t1 = SMTP_TIMEOUT
    ∧ socketTimeoutApplied t2 = SMTP_TIMEOUT
    ∧ SMTP_TIMEOUT = 30000 := ⟨rfl, rfl, rfl, rfl⟩

/-- Claim C9: `generateEmailFromPattern` is a pure function of its four
arguments that lower-cases the names and applies the pattern's fixed
template: the two example instantiations of the spec hold, and every
pattern value outside the five named templates yields the
`firstname.lastname` template. -/
theorem C9_generate_patterns (firstName lastName domain pattern : List Char)
    (hp : pattern ∉ patternOrder) :
    generateEmailFromPattern (S "Jane") (S "Doe") (S "acme.com")
        (S "firstname.lastname") = S "jane.doe@acme.com"
    ∧ generateEmailFromPattern (S "Jane") (S "Doe") (S "acme.com")
        (S "flastname") = S "jdoe@acme.com"
    ∧ generateEmailFromPattern firstName lastName domain pattern
        = jsLower firstName ++ S "." ++ jsLower lastName ++ S "@" ++ domain := by
  refine ⟨by decide, by decide, ?_⟩
  simp only [patternOrder, List.mem_cons, List.not_mem_nil, or_false,
    not_or] at hp
  obtain ⟨h1, h2, h3, h4, h5⟩ := hp
  rw [generateEmailFromPattern]
  rw [if_neg h1, if_neg h2, if_neg h3, if_neg h4, if_neg h5]

/-- Witness for C9 at the `unknown` sentinel, which is outside the five
named patterns and falls back to the `firstname.lastname` template. -/
theorem C9_witness :
    (S "unknown") ∉ patternOrder
    ∧ generateEmailFromPattern (S "Jane") (S "Doe") (S "acme.com")
        (S "unknown") = S "jane.doe@acme.com" := by
  refine ⟨by decide, ?_⟩
  have h := C9_generate_patterns (S "Jane") (S "Doe") (S "acme.com")
    (S "unknown") (by decide)
  rw [h.2.2]
  decide

/-- Counterexample to claim C10 as stated: with the non-empty names
`x@y` / `z` the five instantiated local parts are pairwise distinct, yet the
round trip fails for pattern `firstname` — the generated address
`x@y@d.com` is split at its first `'@'`, so the recovered local part `x`
matches no template and detection returns `null`. -/
theorem C10_counterexample :
    (S "x@y") ≠ []
    ∧ (S "z") ≠ []
    ∧ (patternOrder.map
        (localTemplate (jsLower (S "x@y")) (jsLower (S "z")))).Pairwise (· ≠ ·)
    ∧ detectPatternFromEmail
        (generateEmailFromPattern (S "x@y") (S "z") (S "d.com") (S "firstname"))
        (S "x@y") (S "z") ≠ some (S "firstname") := by decide

/-- Claim C10 (amended): for non-empty names, a pattern `p` among the five
named patterns whose five instantiated local parts are pairwise distinct,
and — as the counterexample forces — whose winning local part contains no
`'@'`, detection inverts generation: `detect (generate p) = p`.  Moreover
`detectPatternFromEmail` always returns the first matching pattern of the
fixed check order (`firstMatching` over `patternOrder`). -/
theorem C10_roundtrip (firstName lastName domain p email : List Char)
    (hp : p ∈ patternOrder)
    (hdist : (patternOrder.map
        (localTemplate (jsLower firstName) (jsLower lastName))).Pairwise (· ≠ ·))
    (hat : '@' ∉ localTemplate (jsLower firstName) (jsLower lastName) p)
    (hfn : firstName ≠ []) (hln : lastName ≠ []) :
    detectPatternFromEmail
        (generateEmailFromPattern firstName lastName domain p)
        firstName lastName = some p
    ∧ detectPatternFromEmail email firstName lastName
        = firstMatching (email.takeWhile (· ≠ '@'))
            (jsLower firstName) (jsLower lastName) patternOrder := by
  refine ⟨?_, detect_firstMatching email firstName lastName⟩
  rw [detect_firstMatching, gen_localTemplate firstName lastName domain p hp,
    takeWhile_append_at _ _ hat]
  exact firstMatching_self (jsLower firstName) (jsLower lastName) p
    patternOrder hp hdist

/-- Witness for C10 (amended) at `Jane` / `Doe` with pattern `flastname`:
all hypotheses hold and the round trip recovers the pattern. -/
theorem C10_witness :
    (S "flastname") ∈ patternOrder
    ∧ detectPatternFromEmail
        (generateEmailFromPattern (S "Jane") (S "Doe") (S "acme.com")
          (S "flastname"))
        (S "Jane") (S "Doe") = some (S "flastname") := by
  refine ⟨by decide, ?_⟩
  exact (C10_roundtrip (S "Jane") (S "Doe") (S "acme.com") (S "flastname")
    (S "probe@x.io") (by decide) (by decide) (by decide) (by decide)
    (by decide)).1
